import Mathlib

/-!
Verification of the weather presentation pipeline in `pogoda.py`.

The development shallowly embeds the pure core of the program: the static
lookup tables (`weather_gradients`, `weather_tips`, `weather_icons`,
`month_names`), the `WeatherDataHandler` accessors and `format_date`, the
initial-selection logic, and the text the display components compute.
Python values parsed by `json.load` are modeled by the `JSON` type
(numbers restricted to integers, which covers every figure the program
handles); Python exceptions are modeled by `Except PyError`.
-/

namespace Pogoda

/-- The Python exception classes the program can raise or catch. -/
inductive PyError where
  | keyError
  | indexError
  | valueError
  | attributeError
  | typeError
deriving DecidableEq

/-- A value as returned by `json.load`: `None`, booleans, numbers (modeled
as integers), strings, lists, and dicts as insertion-ordered association
lists with unique keys. -/
inductive JSON where
  | null
  | bool (b : Bool)
  | num (n : Int)
  | str (s : String)
  | arr (elems : List JSON)
  | obj (entries : List (String × JSON))

/-- Lookup in an association list (Python dict with string keys);
first binding wins. -/
def assocFind {α : Type} : List (String × α) → String → Option α
  | [], _ => none
  | (k0, v) :: rest, k => if k = k0 then some v else assocFind rest k

/-- Python `d.get(key, default)` on a dict represented as an association
list: never raises. -/
def dict_get {α : Type} (entries : List (String × α)) (k : String) (d : α) : α :=
  (assocFind entries k).getD d

/-- The Python method call `v.get(key, default)`: only dict values have a
`get` attribute, so every other value raises `AttributeError`. -/
def pyGet (v : JSON) (k : String) (d : JSON) : Except PyError JSON :=
  match v with
  | .obj entries => .ok (dict_get entries k d)
  | _ => .error .attributeError

/-- The Python subscript `v[key]` with a string key: `KeyError` when a dict
lacks the key, `TypeError` when `v` is not a dict. -/
def pyIndex (v : JSON) (k : String) : Except PyError JSON :=
  match v with
  | .obj entries =>
    match assocFind entries k with
    | some x => .ok x
    | none => .error .keyError
  | _ => .error .typeError

/-- Python `str()` as applied inside the program's f-strings. Containers
are abbreviated; the program only ever formats numbers and strings. -/
def pyStr : JSON → String
  | .null => "None"
  | .bool true => "True"
  | .bool false => "False"
  | .num n => toString n
  | .str s => s
  | .arr _ => "[...]"
  | .obj _ => "\x7b...\x7d"

/-- Python `v - 1` as in the feels-like figure: numbers (and booleans,
which are ints in Python) subtract; other values raise `TypeError`. -/
def pySubOne : JSON → Except PyError Int
  | .num n => .ok (n - 1)
  | .bool b => .ok ((if b then 1 else 0) - 1)
  | _ => .error .typeError

/-! ### The static lookup tables (module level in `pogoda.py`) -/

/-- `weather_gradients`: background gradient (start, end) per condition. -/
def weather_gradients : List (String × (String × String)) :=
  [("clear", ("#FFD700", "#FFFFFF")),
   ("partly-cloudy", ("#87CEEB", "#FFFFFF")),
   ("cloudy", ("#B0C4DE", "#D3D3D3")),
   ("rain", ("#4682B4", "#87CEFA")),
   ("snow", ("#ADD8E6", "#FFFFFF"))]

/-- `weather_tips`: advice line per condition. -/
def weather_tips : List (String × String) :=
  [("clear", "Ясная погода Кристина Александровна! Возьмите солнцезащитные очки."),
   ("partly-cloudy", "Переменная облачность Кристина Александровна, на всякий случай захватите легкий зонт."),
   ("cloudy", "Облачная погода Кристина Александровна, наденьте теплую кофту, возможен небольшой ветер."),
   ("rain", "Дождь Кристина Александровна! Не забудьте зонт и водонепроницаемую обувь."),
   ("snow", "Снег Кристина Александровна! Одевайтесь тепло и наденьте нескользящую обувь.")]

/-- `weather_icons`: display glyph per condition. -/
def weather_icons : List (String × String) :=
  [("clear", "☀️"),
   ("partly-cloudy", "⛅"),
   ("cloudy", "☁️"),
   ("rain", "🌧️"),
   ("snow", "❄️")]

/-- `month_names`: month number (two-digit string) to Russian name. -/
def month_names : List (String × String) :=
  [("04", "апреля"),
   ("05", "мая"),
   ("06", "июня"),
   ("07", "июля"),
   ("08", "августа"),
   ("09", "сентября"),
   ("10", "октября"),
   ("11", "ноября"),
   ("12", "декабря"),
   ("01", "января"),
   ("02", "февраля"),
   ("03", "марта")]

/-! ### `WeatherDataHandler.format_date` and its Python building blocks -/

/-- Python `s.split('-')` on the character list of `s`; as in Python,
the empty string splits to `[""]` and separators at the ends produce
empty pieces. -/
def splitDash : List Char → List (List Char)
  | [] => [[]]
  | c :: rest =>
    match splitDash rest with
    | [] => [[c]]
    | h :: t => if c = '-' then [] :: h :: t else (c :: h) :: t

/-- Decimal value of a digit list (most significant first). -/
def digitsToNat (l : List Char) : Nat :=
  l.foldl (fun a c => a * 10 + (c.toNat - 48)) 0

/-- Strip leading and trailing whitespace, as Python `int()` does before
parsing. -/
def stripWS (l : List Char) : List Char :=
  ((l.dropWhile Char.isWhitespace).reverse.dropWhile Char.isWhitespace).reverse

/-- Python `int(s)` on a string: optional surrounding whitespace, optional
sign, then decimal digits; anything else raises `ValueError`. (Underscore
separators and non-ASCII digits are not modeled; the program never feeds
them to `int`.) -/
def pyInt (s : List Char) : Except PyError Int :=
  match stripWS s with
  | [] => .error .valueError
  | c :: ds =>
    if c = '+' then
      if !ds.isEmpty && ds.all (·.isDigit) then .ok (digitsToNat ds) else .error .valueError
    else if c = '-' then
      if !ds.isEmpty && ds.all (·.isDigit) then .ok (-(digitsToNat ds : Int))
      else .error .valueError
    else
      if (c :: ds).all (·.isDigit) then .ok (digitsToNat (c :: ds)) else .error .valueError

/-- `WeatherDataHandler.format_date`: evaluates `date.split('-')[2]` then
`date.split('-')[1]`, then the f-string `f"{int(day)} {month_names[month]}"`
left to right, catching only `IndexError` and `KeyError` (which return the
input unchanged); a `ValueError` raised by `int(day)` propagates. -/
def format_date (date : String) : Except PyError String :=
  match (splitDash date.data).get? 2, (splitDash date.data).get? 1 with
  | some day, some mon =>
    (match pyInt day with
     | .error e => .error e
     | .ok n =>
       match assocFind month_names (String.mk mon) with
       | some name => .ok (toString n ++ " " ++ name)
       | none => .ok date)
  | _, _ => .ok date

/-! ### `WeatherDataHandler`: load and accessors -/

/-- The outcomes `load_weather_data` distinguishes: the file is missing
(`FileNotFoundError`), its content is not JSON (`json.JSONDecodeError`),
any other exception, or a successful parse producing a value. -/
inductive LoadSource where
  | fileNotFound
  | jsonDecodeError
  | otherError (msg : String)
  | content (v : JSON)

/-- What `load_weather_data` produces: the dataset value and whether a
warning/error box was shown. -/
structure LoadResult where
  data : JSON
  warned : Bool

/-- `WeatherDataHandler.load_weather_data`: every failure branch shows a
message box and returns the empty dict; a successful parse is returned
verbatim, with no shape validation. -/
def load_weather_data : LoadSource → LoadResult
  | .fileNotFound => ⟨.obj [], true⟩
  | .jsonDecodeError => ⟨.obj [], true⟩
  | .otherError _ => ⟨.obj [], true⟩
  | .content v => ⟨v, false⟩

/-- The default current-conditions dict in `get_current_weather`. -/
def default_current : JSON :=
  .obj [("temp", .num 0), ("condition", .str "cloudy"), ("wind", .num 0), ("humidity", .num 0)]

/-- `WeatherDataHandler.get_current_weather`:
`self.weather_data.get(city, \x7b\x7d).get("current", default)`. -/
def get_current_weather (weather_data : JSON) (city : String) : Except PyError JSON := do
  let cityData ← pyGet weather_data city (.obj [])
  pyGet cityData "current" default_current

/-- `WeatherDataHandler.get_hourly_forecast`:
`self.weather_data.get(city, \x7b\x7d).get("hourly", \x7b\x7d)`. -/
def get_hourly_forecast (weather_data : JSON) (city : String) : Except PyError JSON := do
  let cityData ← pyGet weather_data city (.obj [])
  pyGet cityData "hourly" (.obj [])

/-- `WeatherDataHandler.get_daily_forecast`:
`self.weather_data.get(city, \x7b\x7d).get("forecast", \x7b\x7d)`. -/
def get_daily_forecast (weather_data : JSON) (city : String) : Except PyError JSON := do
  let cityData ← pyGet weather_data city (.obj [])
  pyGet cityData "forecast" (.obj [])

/-! ### Selection state -/

/-- The sentinel "no data" pseudo-city. -/
def no_data_city : String := "Нет данных"

/-- `CityListComponent.__init__`: `sorted(cities) if cities else ["Нет данных"]`.
Python sorts strings by code points, which is Lean's `String` order. -/
def city_list (cities : List String) : List String :=
  if cities.isEmpty then [no_data_city] else cities.mergeSort

/-- `WeatherApp.__init__` line 289: the initial selection is
`sorted(weather_data.keys())[0]` when the dataset is non-empty, else the
sentinel. (`headD` never sees its default on a non-empty list.) -/
def initial_city (cities : List String) : String :=
  if cities.isEmpty then no_data_city else cities.mergeSort.headD no_data_city

/-! ### `WeatherDisplayComponent.show_current` -/

/-- The label texts `show_current` computes, in creation order. -/
structure CurrentView where
  main_line : String
  description : String
  feels : String
  wind : String
  pressure : String
  humidity : String
  tip : String

/-- `WeatherDisplayComponent.show_current`: fetches the (defaulted)
current dict, then builds each label text in source order; subscripts on a
malformed dict raise, and the per-field "Н/Д" placeholders appear only for
the sentinel city (guards short-circuit the f-strings). -/
def show_current (weather_data : JSON) (city : String) : Except PyError CurrentView := do
  let data ← get_current_weather weather_data city
  let cond ← pyIndex data "condition"
  let condition_icon :=
    match cond with
    | .str s => dict_get weather_icons s "⛅"
    | _ => "⛅"
  let temp ← pyIndex data "temp"
  let main_line := "+" ++ pyStr temp ++ "° " ++ condition_icon
  let description :=
    if city ≠ no_data_city then "Пасмурно, в ближайшие 2 часа осадков не ожидается"
    else "Данные отсутствуют"
  let feels ←
    if city ≠ no_data_city then do
      let t ← pyIndex data "temp"
      let f ← pySubOne t
      pure ("ОЩУЩАЕТСЯ\n+" ++ toString f ++ "°")
    else pure "ОЩУЩАЕТСЯ\nН/Д"
  let wind ←
    if city ≠ no_data_city then do
      let w ← pyIndex data "wind"
      pure ("ВЕТЕР\n" ++ pyStr w ++ " м/с")
    else pure "ВЕТЕР\nН/Д"
  let pressure :=
    if city ≠ no_data_city then "ДАВЛЕНИЕ\n743 мм рт. ст." else "ДАВЛЕНИЕ\nН/Д"
  let humidity ←
    if city ≠ no_data_city then do
      let h ← pyIndex data "humidity"
      pure ("ВЛАЖНОСТЬ\n" ++ pyStr h ++ "%")
    else pure "ВЛАЖНОСТЬ\nН/Д"
  let condForTip ← pyIndex data "condition"
  let tip :=
    match condForTip with
    | .str s => dict_get weather_tips s "Нет данных о погоде"
    | _ => "Нет данных о погоде"
  pure ⟨main_line, description, feels, wind, pressure, humidity, tip⟩

/-! ### `WeatherDisplayComponent.show_14_day_forecast` -/

/-- The hardcoded 14 dates of the forecast block. -/
def fc_dates : List String :=
  ["2025-04-15", "2025-04-16", "2025-04-17", "2025-04-18", "2025-04-19",
   "2025-04-20", "2025-04-21", "2025-04-22", "2025-04-23", "2025-04-24",
   "2025-04-25", "2025-04-26", "2025-04-27", "2025-04-28"]

/-- The hardcoded 14 temperatures of the forecast block. -/
def fc_temps : List Int :=
  [16, 14, 12, 10, 13, 15, 17, 11, 13, 18, 19, 16, 14, 12]

/-- The hardcoded 14 condition codes of the forecast block. -/
def fc_conds : List String :=
  ["clear", "cloudy", "rain", "snow", "partly-cloudy",
   "clear", "clear", "cloudy", "partly-cloudy", "clear",
   "rain", "snow", "partly-cloudy", "cloudy"]

/-- One rendered row of the 14-day list. -/
structure ForecastRow where
  date_text : String
  icon : String
  temp_text : String

/-- Python `l[i]` on a list: `IndexError` out of range. -/
def pyListGet {α : Type} (l : List α) (i : Nat) : Except PyError α :=
  match l.get? i with
  | some x => .ok x
  | none => .error .indexError

/-- The body of one iteration of the forecast loop: `format_date(date)`,
then the three label texts using `conditions[i]` and `temps[i]`. Any
exception is caught by the surrounding `try`. -/
def render_day (temps : List Int) (conds : List String) (i : Nat) (date : String) :
    Except PyError ForecastRow := do
  let fd ← format_date date
  let c ← pyListGet conds i
  let t ← pyListGet temps i
  pure ⟨fd, dict_get weather_icons c "⛅", "+" ++ toString t ++ "°"⟩

/-- The forecast loop: `for i, date in enumerate(dates)`, each iteration in
a `try` whose `except` logs and `continue`s, so a failing day is skipped
and the rest still render. -/
def forecast_rows (temps : List Int) (conds : List String) (dates : List String) :
    List ForecastRow :=
  dates.enum.filterMap (fun p => (render_day temps conds p.1 p.2).toOption)

/-- What `show_14_day_forecast` renders for a city: the sentinel city gets
the "Нет данных" placeholder; every other city gets the rows computed from
the hardcoded date/temperature/condition lists. The dataset is not
consulted (the method never calls `get_daily_forecast`). -/
inductive ForecastView where
  | noData
  | rows (rs : List ForecastRow)

/-- `WeatherDisplayComponent.show_14_day_forecast`. -/
def show_14_day_forecast (city : String) : ForecastView :=
  if city = no_data_city then .noData
  else .rows (forecast_rows fc_temps fc_conds fc_dates)

/-! ### `WeatherApp.set_gradient_background` -/

/-- `WeatherApp.set_gradient_background`: takes the gradient pair for the
condition (falling back to partly-cloudy's pair) and applies its start
color; the lookup itself cannot raise. -/
def set_gradient_background (condition : String) : String :=
  (dict_get weather_gradients condition ("#87CEEB", "#FFFFFF")).1

/-! ### Helper lemmas -/

/-- A successful association-list lookup locates an actual entry. -/
lemma assocFind_mem {α : Type} {l : List (String × α)} {k : String} {v : α}
    (h : assocFind l k = some v) : (k, v) ∈ l := by
  induction l with
  | nil => simp [assocFind] at h
  | cons p t ih =>
    obtain ⟨k0, w⟩ := p
    by_cases hk : k = k0
    · subst hk
      simp [assocFind] at h
      simp [h]
    · simp [assocFind, hk] at h
      exact List.mem_cons_of_mem _ (ih h)

/-- Unfolding `get_current_weather` on a dict dataset. -/
lemma get_current_weather_obj (entries : List (String × JSON)) (city : String) :
    get_current_weather (.obj entries) city =
      pyGet (dict_get entries city (.obj [])) "current" default_current := rfl

/-- Unfolding `get_hourly_forecast` on a dict dataset. -/
lemma get_hourly_forecast_obj (entries : List (String × JSON)) (city : String) :
    get_hourly_forecast (.obj entries) city =
      pyGet (dict_get entries city (.obj [])) "hourly" (.obj []) := rfl

/-- Unfolding `get_daily_forecast` on a dict dataset. -/
lemma get_daily_forecast_obj (entries : List (String × JSON)) (city : String) :
    get_daily_forecast (.obj entries) city =
      pyGet (dict_get entries city (.obj [])) "forecast" (.obj []) := rfl

/-! ### C1 -/

/-- C1: the code, not the claim, is at fault. `format_date("not-a-date")`
evaluates `int("date")`, which raises `ValueError`; the `except` clause
catches only `IndexError` and `KeyError`, so the exception escapes instead
of the input being returned unchanged. -/
theorem format_date_not_a_date_raises_valueError :
    format_date "not-a-date" = .error .valueError := by rfl

/-! ### C5 -/

/-- C5: every load error — missing file, JSON decode failure, or any other
exception — reports a warning box and yields the empty dataset. -/
theorem load_error_empty_dataset (src : LoadSource)
    (h : src = .fileNotFound ∨ src = .jsonDecodeError ∨ ∃ m, src = .otherError m) :
    (load_weather_data src).data = .obj [] ∧ (load_weather_data src).warned = true := by
  rcases h with h | h | ⟨m, h⟩ <;> subst h <;> exact ⟨rfl, rfl⟩

/-- Witness for C5 at the missing-file outcome. -/
theorem load_error_empty_dataset_witness :
    (LoadSource.fileNotFound = LoadSource.fileNotFound ∨
      LoadSource.fileNotFound = LoadSource.jsonDecodeError ∨
      ∃ m, LoadSource.fileNotFound = LoadSource.otherError m) ∧
    (load_weather_data .fileNotFound).data = .obj [] ∧
    (load_weather_data .fileNotFound).warned = true :=
  ⟨Or.inl rfl, load_error_empty_dataset .fileNotFound (Or.inl rfl)⟩

/-! ### C10 -/

/-- C10: a successful parse is returned verbatim with no shape validation
(here a JSON array), and every accessor then raises `AttributeError`
because a list has no `get` method — instead of returning the defaults. -/
theorem load_no_validation_accessors_raise :
    (load_weather_data (.content (.arr []))).data = .arr [] ∧
    (load_weather_data (.content (.arr []))).warned = false ∧
    get_current_weather (.arr []) "Москва" = .error .attributeError ∧
    get_hourly_forecast (.arr []) "Москва" = .error .attributeError ∧
    get_daily_forecast (.arr []) "Москва" = .error .attributeError :=
  ⟨rfl, rfl, rfl, rfl, rfl⟩

/-! ### C9 -/

/-- C9 counterexample: on the empty dataset the sentinel view does render
without throwing, but not every field is a "no data" placeholder — the
temperature line shows the defaulted "+0° ☁️" and the tip is the cloudy
condition's advice, not the no-data tip. -/
theorem empty_dataset_view_counterexample :
    city_list [] = [no_data_city] ∧
    show_current (.obj []) no_data_city =
      .ok ⟨"+0° ☁️", "Данные отсутствуют", "ОЩУЩАЕТСЯ\nН/Д", "ВЕТЕР\nН/Д",
           "ДАВЛЕНИЕ\nН/Д", "ВЛАЖНОСТЬ\nН/Д",
           "Облачная погода Кристина Александровна, наденьте теплую кофту, возможен небольшой ветер."⟩ ∧
    "+0° ☁️" ≠ "Н/Д" ∧ "+0° ☁️" ≠ "Нет данных" ∧ "+0° ☁️" ≠ "Данные отсутствуют" ∧
    dict_get weather_tips "cloudy" "Нет данных о погоде" ≠ "Нет данных о погоде" := by
  refine ⟨rfl, rfl, ?_, ?_, ?_, ?_⟩ <;> decide

/-- C9 amended: on the empty dataset `listCities` is the single sentinel
entry and the current view renders without throwing, with the description
and the feels-like/wind/pressure/humidity details as "no data"
placeholders; the temperature line however shows the defaulted "+0° ☁️"
and the tip is the cloudy condition's advice. -/
theorem empty_dataset_view_amended :
    city_list [] = [no_data_city] ∧
    ∃ v, show_current (.obj []) no_data_city = .ok v ∧
      v.description = "Данные отсутствуют" ∧
      v.feels = "ОЩУЩАЕТСЯ\nН/Д" ∧
      v.wind = "ВЕТЕР\nН/Д" ∧
      v.pressure = "ДАВЛЕНИЕ\nН/Д" ∧
      v.humidity = "ВЛАЖНОСТЬ\nН/Д" ∧
      v.main_line = "+0° ☁️" ∧
      v.tip = dict_get weather_tips "cloudy" "Нет данных о погоде" :=
  ⟨rfl, ⟨_, rfl, rfl, rfl, rfl, rfl, rfl, rfl, rfl⟩⟩

/-! ### C4 -/

/-- C4: the icon, tip and gradient lookups are total functions; any code
outside the enumerated five resolves to the fixed fallbacks — the
partly-cloudy icon "⛅" and gradient ("#87CEEB", "#FFFFFF") (shown equal to
the table's partly-cloudy entries) and the generic no-data tip — and the
background setter applies the fallback's start color. -/
theorem lookup_fallbacks (cond : String)
    (h : cond ∉ ["clear", "partly-cloudy", "cloudy", "rain", "snow"]) :
    dict_get weather_icons cond "⛅" = "⛅" ∧
    dict_get weather_tips cond "Нет данных о погоде" = "Нет данных о погоде" ∧
    dict_get weather_gradients cond ("#87CEEB", "#FFFFFF") = ("#87CEEB", "#FFFFFF") ∧
    set_gradient_background cond = "#87CEEB" ∧
    dict_get weather_icons "partly-cloudy" "" = "⛅" ∧
    dict_get weather_gradients "partly-cloudy" ("", "") = ("#87CEEB", "#FFFFFF") := by
  simp only [List.mem_cons, List.not_mem_nil, or_false, not_or] at h
  obtain ⟨h1, h2, h3, h4, h5⟩ := h
  refine ⟨?_, ?_, ?_, ?_, rfl, rfl⟩ <;>
    simp [dict_get, assocFind, weather_icons, weather_tips, weather_gradients,
      set_gradient_background, h1, h2, h3, h4, h5]

/-- Witness for C4 at the unrecognized code "туман". -/
theorem lookup_fallbacks_witness :
    "туман" ∉ ["clear", "partly-cloudy", "cloudy", "rain", "snow"] ∧
    (dict_get weather_icons "туман" "⛅" = "⛅" ∧
     dict_get weather_tips "туман" "Нет данных о погоде" = "Нет данных о погоде" ∧
     dict_get weather_gradients "туман" ("#87CEEB", "#FFFFFF") = ("#87CEEB", "#FFFFFF") ∧
     set_gradient_background "туман" = "#87CEEB" ∧
     dict_get weather_icons "partly-cloudy" "" = "⛅" ∧
     dict_get weather_gradients "partly-cloudy" ("", "") = ("#87CEEB", "#FFFFFF")) :=
  ⟨by decide, lookup_fallbacks "туман" (by decide)⟩

/-! ### C3 -/

/-- C3: when the city is absent from a dict dataset, all three accessors
return their documented defaults; when the city maps to a dict, each
accessor whose block key is absent returns its default — the full
current-conditions record for `current`, the empty mapping for `hourly`
and `forecast` — and none of them fails (the results are `.ok`). -/
theorem accessors_absent_default (entries : List (String × JSON)) (city : String) :
    (assocFind entries city = none →
      get_current_weather (.obj entries) city = .ok default_current ∧
      get_hourly_forecast (.obj entries) city = .ok (.obj []) ∧
      get_daily_forecast (.obj entries) city = .ok (.obj [])) ∧
    (∀ ckvs, assocFind entries city = some (.obj ckvs) →
      (assocFind ckvs "current" = none →
        get_current_weather (.obj entries) city = .ok default_current) ∧
      (assocFind ckvs "hourly" = none →
        get_hourly_forecast (.obj entries) city = .ok (.obj [])) ∧
      (assocFind ckvs "forecast" = none →
        get_daily_forecast (.obj entries) city = .ok (.obj []))) := by
  constructor
  · intro h
    have e : dict_get entries city (JSON.obj []) = .obj [] := by
      simp [dict_get, h]
    rw [get_current_weather_obj, get_hourly_forecast_obj, get_daily_forecast_obj, e]
    exact ⟨rfl, rfl, rfl⟩
  · intro ckvs h
    have e : dict_get entries city (JSON.obj []) = .obj ckvs := by
      simp [dict_get, h]
    refine ⟨fun hc => ?_, fun hh => ?_, fun hf => ?_⟩
    · rw [get_current_weather_obj, e]
      simp [pyGet, dict_get, hc]
    · rw [get_hourly_forecast_obj, e]
      simp [pyGet, dict_get, hh]
    · rw [get_daily_forecast_obj, e]
      simp [pyGet, dict_get, hf]

/-- Witness for C3 on the empty dataset. -/
theorem accessors_absent_default_witness :
    assocFind ([] : List (String × JSON)) "Москва" = none ∧
    (get_current_weather (.obj []) "Москва" = .ok default_current ∧
     get_hourly_forecast (.obj []) "Москва" = .ok (.obj []) ∧
     get_daily_forecast (.obj []) "Москва" = .ok (.obj [])) :=
  ⟨rfl, (accessors_absent_default [] "Москва").1 rfl⟩

/-! ### C2 -/

/-- C2 counterexample: with a present but empty `current` block, the
accessor hands the block back verbatim — the result has no "temp" (nor any
other) field, so it does not satisfy the CurrentConditions shape, and the
consumer `show_current` then hits the missing-key fault (`KeyError`). -/
theorem accessor_shape_counterexample :
    get_current_weather (.obj [("X", .obj [("current", .obj [])])]) "X" = .ok (.obj []) ∧
    assocFind ([] : List (String × JSON)) "temp" = none ∧
    show_current (.obj [("X", .obj [("current", .obj [])])]) "X" = .error .keyError :=
  ⟨rfl, rfl, rfl⟩

/-- C2 amended: on a dataset that is a mapping whose city entries are
mappings, no accessor itself raises; `get_current_weather` returns either
the shape-complete default (city or `current` key absent) or the stored
`current` block verbatim — which need not satisfy the shape, its missing
keys surfacing in the caller instead. -/
theorem accessors_default_or_verbatim (entries : List (String × JSON))
    (hvals : ∀ p ∈ entries, ∃ ckvs, p.2 = JSON.obj ckvs) (city : String) :
    (∃ r, get_current_weather (.obj entries) city = .ok r ∧
      (r = default_current ∨
        ∃ ckvs, assocFind entries city = some (.obj ckvs) ∧
          assocFind ckvs "current" = some r)) ∧
    (∃ hv, get_hourly_forecast (.obj entries) city = .ok hv) ∧
    (∃ dv, get_daily_forecast (.obj entries) city = .ok dv) := by
  cases hfind : assocFind entries city with
  | none =>
    have h := (accessors_absent_default entries city).1 hfind
    exact ⟨⟨default_current, h.1, Or.inl rfl⟩, ⟨_, h.2.1⟩, ⟨_, h.2.2⟩⟩
  | some v =>
    obtain ⟨ckvs, hck⟩ := hvals (city, v) (assocFind_mem hfind)
    subst hck
    have e : dict_get entries city (JSON.obj []) = .obj ckvs := by
      simp [dict_get, hfind]
    refine ⟨?_, ?_, ?_⟩
    · rw [get_current_weather_obj, e]
      cases hc : assocFind ckvs "current" with
      | none => exact ⟨default_current, by simp [pyGet, dict_get, hc], Or.inl rfl⟩
      | some r => exact ⟨r, by simp [pyGet, dict_get, hc], Or.inr ⟨ckvs, rfl, hc⟩⟩
    · rw [get_hourly_forecast_obj, e]
      exact ⟨_, rfl⟩
    · rw [get_daily_forecast_obj, e]
      exact ⟨_, rfl⟩

/-- Witness for the amended C2 on a dataset with one well-typed city. -/
theorem accessors_default_or_verbatim_witness :
    (∃ r, get_current_weather (.obj [("X", .obj [("current", .obj [])])]) "X" = .ok r ∧
      (r = default_current ∨
        ∃ ckvs, assocFind [("X", JSON.obj [("current", .obj [])])] "X" = some (.obj ckvs) ∧
          assocFind ckvs "current" = some r)) ∧
    (∃ hv, get_hourly_forecast (.obj [("X", .obj [("current", .obj [])])]) "X" = .ok hv) ∧
    (∃ dv, get_daily_forecast (.obj [("X", .obj [("current", .obj [])])]) "X" = .ok dv) :=
  accessors_default_or_verbatim [("X", .obj [("current", .obj [])])]
    (by
      intro p hp
      rw [List.mem_singleton] at hp
      subst hp
      exact ⟨[("current", .obj [])], rfl⟩)
    "X"

/-! ### C6 -/

/-- C6: on a non-empty dataset the initial selection is the
lexicographically-first city name (Lean's `String` order, i.e. code-point
comparison — Python's case-sensitive ordinal string order): it belongs to
the dataset and is ≤ every city. On the empty dataset it is the sentinel. -/
theorem initial_city_lex_first (cities : List String) :
    (cities = [] → initial_city cities = no_data_city) ∧
    (cities ≠ [] →
      initial_city cities ∈ cities ∧ ∀ c ∈ cities, initial_city cities ≤ c) := by
  constructor
  · intro h
    subst h
    rfl
  · intro h
    have hperm : List.Perm (cities.mergeSort) cities := List.mergeSort_perm cities _
    have hsorted : List.Sorted (· ≤ ·) cities.mergeSort := List.sorted_mergeSort' cities
    obtain ⟨x, xs, hx⟩ : ∃ x xs, cities.mergeSort = x :: xs := by
      cases hms : cities.mergeSort with
      | nil =>
        rw [hms] at hperm
        exact absurd hperm.symm.eq_nil h
      | cons x xs => exact ⟨x, xs, rfl⟩
    have hne : cities.isEmpty = false := by
      simp [List.isEmpty_iff, h]
    have hic : initial_city cities = x := by
      unfold initial_city
      rw [hne, hx]
      rfl
    rw [hx] at hsorted hperm
    obtain ⟨hhead, _⟩ := List.sorted_cons.mp hsorted
    constructor
    · rw [hic]
      exact hperm.mem_iff.mp (List.mem_cons_self x xs)
    · intro c hc
      rw [hic]
      rcases List.mem_cons.mp (hperm.mem_iff.mpr hc) with hcx | hcx
      · exact le_of_eq hcx.symm
      · exact hhead c hcx

/-- Witness for C6 on a concrete two-city dataset. -/
theorem initial_city_lex_first_witness :
    (["Берлин", "Астрахань"] : List String) ≠ [] ∧
    (initial_city ["Берлин", "Астрахань"] ∈ (["Берлин", "Астрахань"] : List String) ∧
     ∀ c ∈ (["Берлин", "Астрахань"] : List String), initial_city ["Берлин", "Астрахань"] ≤ c) :=
  ⟨by decide, (initial_city_lex_first ["Берлин", "Астрахань"]).2 (by decide)⟩

/-! ### C7 -/

/-- Length of a `filterMap` counts the inputs the function succeeds on. -/
lemma length_filterMap_eq_countP {α β : Type} (f : α → Option β) (l : List α) :
    (l.filterMap f).length = l.countP (fun a => (f a).isSome) := by
  induction l with
  | nil => rfl
  | cons a t ih =>
    cases hfa : f a <;>
      simp [List.filterMap_cons, hfa, List.countP_cons, ih]

/-- C7: the sentinel city renders the no-data placeholder; any other city
renders rows computed only from the hardcoded date/temperature/condition
lists — the dataset is never consulted — and all 14 hardcoded days
resolve. The loop isolates per-day failures: over arbitrary lists, every
day whose resolution succeeds contributes its row, and the row count is
exactly the number of succeeding days, so a failing day is skipped without
aborting the rest. -/
theorem forecast_hardcoded_isolated :
    show_14_day_forecast no_data_city = .noData ∧
    (∀ city, city ≠ no_data_city →
      show_14_day_forecast city = .rows (forecast_rows fc_temps fc_conds fc_dates)) ∧
    (forecast_rows fc_temps fc_conds fc_dates).length = 14 ∧
    (∀ temps conds dates (i : Nat) d r, dates[i]? = some d →
      render_day temps conds i d = .ok r → r ∈ forecast_rows temps conds dates) ∧
    (∀ temps conds dates, (forecast_rows temps conds dates).length =
      dates.enum.countP (fun p => (render_day temps conds p.1 p.2).toOption.isSome)) := by
  refine ⟨rfl, ?_, by rfl, ?_, ?_⟩
  · intro city hc
    unfold show_14_day_forecast
    rw [if_neg hc]
  · intro temps conds dates i d r hget hrender
    unfold forecast_rows
    refine List.mem_filterMap.mpr ⟨(i, d), ?_, ?_⟩
    · exact List.mk_mem_enum_iff_getElem?.mpr hget
    · simp [hrender, Except.toOption]
  · intro temps conds dates
    exact length_filterMap_eq_countP _ _

/-- Witness for C7: a concrete three-day list whose middle date is
malformed ("2025-04-xx" makes `int` raise); the third day still renders
and is a member of the output, which has exactly the two successful rows. -/
theorem forecast_hardcoded_isolated_witness :
    "Москва" ≠ no_data_city ∧
    show_14_day_forecast "Москва" = .rows (forecast_rows fc_temps fc_conds fc_dates) ∧
    (["2025-04-15", "2025-04-xx", "2025-04-17"][2]? = some "2025-04-17") ∧
    render_day [1, 2, 3] ["clear", "rain", "snow"] 2 "2025-04-17" =
      .ok ⟨"17 апреля", "❄️", "+3°"⟩ ∧
    render_day [1, 2, 3] ["clear", "rain", "snow"] 1 "2025-04-xx" = .error .valueError ∧
    (⟨"17 апреля", "❄️", "+3°"⟩ : ForecastRow) ∈
      forecast_rows [1, 2, 3] ["clear", "rain", "snow"]
        ["2025-04-15", "2025-04-xx", "2025-04-17"] ∧
    (forecast_rows [1, 2, 3] ["clear", "rain", "snow"]
        ["2025-04-15", "2025-04-xx", "2025-04-17"]).length = 2 :=
  ⟨by decide, forecast_hardcoded_isolated.2.1 "Москва" (by decide), rfl, rfl, rfl,
   forecast_hardcoded_isolated.2.2.2.1 [1, 2, 3] ["clear", "rain", "snow"]
     ["2025-04-15", "2025-04-xx", "2025-04-17"] 2 "2025-04-17" ⟨"17 апреля", "❄️", "+3°"⟩
     rfl rfl,
   rfl⟩

/-! ### C8 -/

/-- `splitDash` never returns the empty list of pieces. -/
lemma splitDash_ne_nil (l : List Char) : splitDash l ≠ [] := by
  induction l with
  | nil => simp [splitDash]
  | cons c rest ih =>
    unfold splitDash
    cases h : splitDash rest with
    | nil => simp
    | cons hd tl => by_cases hc : c = '-' <;> simp [hc]

/-- A dash-free string is a single piece. -/
lemma splitDash_no_dash (l : List Char) (h : '-' ∉ l) : splitDash l = [l] := by
  induction l with
  | nil => rfl
  | cons c rest ih =>
    have hc : c ≠ '-' := fun e => h (e ▸ List.mem_cons_self c rest)
    have hr : '-' ∉ rest := fun m => h (List.mem_cons_of_mem _ m)
    unfold splitDash
    rw [ih hr]
    simp [hc]

/-- Splitting peels off a dash-free prefix at the first dash. -/
lemma splitDash_append (a r : List Char) (h : '-' ∉ a) :
    splitDash (a ++ '-' :: r) = a :: splitDash r := by
  induction a with
  | nil =>
    cases hsr : splitDash r with
    | nil => exact absurd hsr (splitDash_ne_nil r)
    | cons hd tl => simp [splitDash, hsr]
  | cons c a2 ih =>
    have hc : c ≠ '-' := fun e => h (e ▸ List.mem_cons_self c a2)
    have ha : '-' ∉ a2 := fun m => h (List.mem_cons_of_mem _ m)
    simp [splitDash, ih ha, hc]

/-- `dropWhile` is the identity when no element satisfies the predicate. -/
lemma dropWhile_eq_self_of {α : Type} (p : α → Bool) (l : List α)
    (h : ∀ c ∈ l, p c = false) : l.dropWhile p = l := by
  cases l with
  | nil => rfl
  | cons c t => simp [List.dropWhile_cons, h c (List.mem_cons_self c t)]

/-- Digits are not whitespace. -/
lemma not_whitespace_of_digit {c : Char} (h : c.isDigit = true) :
    c.isWhitespace = false := by
  by_contra hw
  rw [Bool.not_eq_false, Char.isWhitespace] at hw
  simp only [Bool.or_eq_true, decide_eq_true_eq] at hw
  rcases hw with ((e | e) | e) | e <;> subst e <;> exact absurd h (by decide)

/-- Whitespace stripping leaves an all-digit string unchanged. -/
lemma stripWS_of_digits (l : List Char) (h : ∀ c ∈ l, c.isDigit) : stripWS l = l := by
  have h2 : ∀ c ∈ l, c.isWhitespace = false :=
    fun c hc => not_whitespace_of_digit (h c hc)
  unfold stripWS
  rw [dropWhile_eq_self_of _ _ h2,
    dropWhile_eq_self_of _ _ (fun c hc => h2 c (List.mem_reverse.mp hc)),
    List.reverse_reverse]

/-- `int()` succeeds on a non-empty all-digit string. -/
lemma pyInt_digits (l : List Char) (hne : l ≠ []) (h : ∀ c ∈ l, c.isDigit) :
    pyInt l = .ok (digitsToNat l : Int) := by
  cases l with
  | nil => exact absurd rfl hne
  | cons c t =>
    have hc : c.isDigit = true := h c (List.mem_cons_self c t)
    have hplus : c ≠ '+' := fun e => absurd (e ▸ hc) (by decide)
    have hminus : c ≠ '-' := fun e => absurd (e ▸ hc) (by decide)
    simp only [pyInt, stripWS_of_digits _ h, if_neg hplus, if_neg hminus]
    rw [if_pos]
    rw [List.all_eq_true]
    exact fun x hx => h x hx

/-- Reduction of `format_date` once the split is known to have at least
three pieces. -/
lemma format_date_of_splitDash (date : String) (p0 p1 p2 : List Char)
    (rest : List (List Char)) (hsplit : splitDash date.data = p0 :: p1 :: p2 :: rest) :
    format_date date =
      (match pyInt p2 with
       | .error e => .error e
       | .ok n =>
         match assocFind month_names (String.mk p1) with
         | some name => .ok (toString n ++ " " ++ name)
         | none => .ok date) := by
  unfold format_date
  rw [hsplit]
  rfl

/-- C8: on a well-shaped date `y-m-d` — dash-free year and month, the
month in the table, a non-empty all-digit day — `format_date` returns
"<day> <monthName>" with the day's numeric value rendered (so leading
zeros are dropped); concretely "2025-04-15" gives "15 апреля" and
"2025-04-05" gives "5 апреля" with the zero removed. -/
theorem format_date_well_formed (y m d name : String)
    (hy : '-' ∉ y.data) (hm : '-' ∉ m.data)
    (hd_ne : d.data ≠ []) (hd_dig : ∀ c ∈ d.data, c.isDigit)
    (hmon : assocFind month_names m = some name) :
    format_date (y ++ "-" ++ m ++ "-" ++ d) =
      .ok (toString (digitsToNat d.data : Int) ++ " " ++ name) ∧
    format_date "2025-04-15" = .ok "15 апреля" ∧
    format_date "2025-04-05" = .ok "5 апреля" := by
  refine ⟨?_, rfl, rfl⟩
  have hd_nd : '-' ∉ d.data := fun hmem => absurd (hd_dig '-' hmem) (by decide)
  have hdata : (y ++ "-" ++ m ++ "-" ++ d).data =
      y.data ++ '-' :: (m.data ++ '-' :: d.data) := by
    simp [String.data_append, List.append_assoc]
  have hsplit : splitDash (y ++ "-" ++ m ++ "-" ++ d).data =
      y.data :: m.data :: d.data :: [] := by
    rw [hdata, splitDash_append _ _ hy, splitDash_append _ _ hm,
      splitDash_no_dash _ hd_nd]
  rw [format_date_of_splitDash _ _ _ _ _ hsplit, pyInt_digits d.data hd_ne hd_dig]
  have hmk : String.mk m.data = m := by
    cases m
    rfl
  rw [hmk, hmon]

/-- Witness for C8 at "2025" / "04" / "15". -/
theorem format_date_well_formed_witness :
    ('-' ∉ ("2025" : String).data) ∧
    format_date ("2025" ++ "-" ++ "04" ++ "-" ++ "15") =
      .ok (toString ((digitsToNat ("15" : String).data : Int)) ++ " " ++ "апреля") :=
  ⟨by decide,
   (format_date_well_formed "2025" "04" "15" "апреля"
     (by decide) (by decide) (by decide) (by decide) rfl).1⟩

end Pogoda
